import Mathlib

/-
Shallow embedding of the pslib PostScript/EPS emitter (Rust crate).

Numbers: the Rust code uses f32 with only max / clamp / + / division by 2;
we model them by ℚ.  Emitted markup is modelled as a list of `PsLine`
values, one per emitted line of markup, keeping every numeric argument the
code would print.
-/

namespace Pslib

/-- Document kind: multi-page PostScript or single-page Encapsulated PostScript. -/
inductive DocumentType
  | PS
  | EPS
deriving DecidableEq, Repr

/-- Transform anchor variants for rectangles (src/lib.rs `TransformOrigin`). -/
inductive TransformOrigin
  | Center
  | BottomLeft
  | TopLeft
  | TopRight
  | BottomRight
deriving DecidableEq, Repr

/-- Transform anchor variants for lines (src/lib.rs `TransformLineOrigin`). -/
inductive TransformLineOrigin
  | Left
  | Center
  | Right
deriving DecidableEq, Repr

/-- Color space tag (src/lib.rs `ColorMode`). -/
inductive ColorMode
  | CMYK
  | RGB
deriving DecidableEq, Repr

/-- One emitted line of markup.  Each constructor keeps the numeric
arguments the Rust code interpolates into the corresponding format string. -/
inductive PsLine
  | gsave
  | grestore
  /-- `"{x} {y} translate"` -/
  | translateTo (x y : ℚ)
  /-- `"-{x} -{y} translate"` (the code prints a literal minus sign) -/
  | translateBack (x y : ℚ)
  /-- `"{a} rotate"` -/
  | rotateCmd (a : ℚ)
  /-- `"{x} {y} scale"` -/
  | scaleCmd (x y : ℚ)
  /-- `"-{w} 0 0 -{h} {w} 0 0 {h} {x} {y} rect"` -/
  | rectPath (w h x y : ℚ)
  /-- `"{len} 0 {x} {y} line"` -/
  | linePath (len x y : ℚ)
  | setrgbcolor (r g b : ℚ)
  | setcmykcolor (c m y k : ℚ)
  | setlinewidth (w : ℚ)
  /-- the `"fill"` operator line -/
  | fillOp
  /-- the `"stroke"` operator line -/
  | strokeOp
  /-- `"%!PS-Adobe-3.0"` -/
  | bannerPS
  /-- `"%!PS-Adobe-3.0 EPSF-3.0"` -/
  | bannerEPS
  /-- `"%%Creator: pslib <version>"` -/
  | creator
  /-- `"%%CreationDate: <timestamp>"` -/
  | creationDate
  /-- `"%%Pages: (atend)"` -/
  | pagesAtEnd
  /-- `"%%Pages: {n}"` (a fixed page count) -/
  | pagesNum (n : Nat)
  /-- `"%%EndComments"` -/
  | endComments
  /-- a procedure definition from the registry preamble -/
  | procedureDef (name body : String)
  /-- `"%%Page: {n} {m}"` -/
  | pageDirective (n m : Nat)
  /-- document-level `"%%BoundingBox: 0 0 {w} {h}"` -/
  | boundingBox (w h : Int)
  /-- `"%%PageBoundingBox: 0 0 {w} {h}"` -/
  | pageBoundingBox (w h : Int)
  /-- `"<< /PageSize [{w} {h}] >> setpagedevice"` -/
  | pageSize (w h : Int)
  /-- `"showpage"` -/
  | showpage
  /-- `"%%EOF"` -/
  | eofComment
deriving DecidableEq, Repr

/-- Rust `v.clamp(lo, hi)` on the values this crate uses. -/
def rclamp (lo hi v : ℚ) : ℚ := max lo (min hi v)

/-- Rust `v.clamp(0.0, 1.0)` used by every color mutator. -/
def clamp01 (v : ℚ) : ℚ := rclamp 0 1 v

/-- src/rect.rs `struct Rect`. -/
structure Rect where
  x : ℚ
  y : ℚ
  width : ℚ
  height : ℚ
  stroke_width : ℚ
  stroke_color_rgb : ℚ × ℚ × ℚ
  stroke_color_cmyk : ℚ × ℚ × ℚ × ℚ
  fill_color_rgb : ℚ × ℚ × ℚ
  fill_color_cmyk : ℚ × ℚ × ℚ × ℚ
  do_fill : Bool
  rotate : ℚ
  scale : ℚ × ℚ
  do_scale : Bool
  do_rotate : Bool
  transform_origin : TransformOrigin
  fill_color_mode : ColorMode
  stroke_color_mode : ColorMode
deriving DecidableEq, Repr

/-- `Rect::new` (src/rect.rs): clamps geometry to ≥ 0, no fill, no stroke. -/
def Rect.new (x y width height : ℚ) : Rect where
  fill_color_mode := ColorMode.RGB
  stroke_color_mode := ColorMode.RGB
  x := max x 0
  y := max y 0
  width := max width 0
  height := max height 0
  stroke_width := 0
  stroke_color_rgb := (0, 0, 0)
  fill_color_rgb := (0, 0, 0)
  stroke_color_cmyk := (0, 0, 0, 0)
  fill_color_cmyk := (0, 0, 0, 0)
  do_fill := false
  do_rotate := false
  rotate := 0
  scale := (1, 1)
  do_scale := false
  transform_origin := TransformOrigin.Center

/-- `Rect::fill_rgb`. -/
def Rect.fill_rgb (s : Rect) (r g b : ℚ) : Rect :=
  { s with
    fill_color_rgb := (clamp01 r, clamp01 g, clamp01 b)
    do_fill := true
    fill_color_mode := ColorMode.RGB }

/-- `Rect::fill_cmyk`. -/
def Rect.fill_cmyk (s : Rect) (c m y k : ℚ) : Rect :=
  { s with
    fill_color_cmyk := (clamp01 c, clamp01 m, clamp01 y, clamp01 k)
    do_fill := true
    fill_color_mode := ColorMode.CMYK }

/-- `Rect::stroke_rgb`. -/
def Rect.stroke_rgb (s : Rect) (width r g b : ℚ) : Rect :=
  { s with
    stroke_width := max width 0
    stroke_color_rgb := (clamp01 r, clamp01 g, clamp01 b)
    stroke_color_mode := ColorMode.RGB }

/-- `Rect::stroke_cmyk`. -/
def Rect.stroke_cmyk (s : Rect) (width c m y k : ℚ) : Rect :=
  { s with
    stroke_width := max width 0
    stroke_color_cmyk := (clamp01 c, clamp01 m, clamp01 y, clamp01 k)
    stroke_color_mode := ColorMode.CMYK }

/-- `Rect::scale` (named `scaleBy` here because `scale` is the field name). -/
def Rect.scaleBy (s : Rect) (x y : ℚ) : Rect :=
  { s with scale := (x, y), do_scale := true }

/-- `Rect::set_orign` (sic, the source's spelling). -/
def Rect.set_orign (s : Rect) (origin : TransformOrigin) : Rect :=
  { s with transform_origin := origin }

/-- `Rect::rotate` (named `rotateBy` here because `rotate` is the field name). -/
def Rect.rotateBy (s : Rect) (angle : ℚ) : Rect :=
  { s with rotate := rclamp (-360) 360 angle, do_rotate := true }

/-- The anchor point `Rect::to_postscript_string` computes from the origin variant. -/
def Rect.originPoint (r : Rect) : ℚ × ℚ :=
  match r.transform_origin with
  | TransformOrigin.TopLeft => (r.x, r.y + r.height)
  | TransformOrigin.TopRight => (r.x + r.width, r.y + r.height)
  | TransformOrigin.BottomLeft => (r.x, r.y)
  | TransformOrigin.BottomRight => (r.x + r.width, r.y)
  | TransformOrigin.Center => (r.x + r.width / 2, r.y + r.height / 2)

/-- The color-setting line of the fill block, per the rect's fill color mode. -/
def Rect.fillColorLine (r : Rect) : PsLine :=
  match r.fill_color_mode with
  | ColorMode.RGB =>
    PsLine.setrgbcolor r.fill_color_rgb.1 r.fill_color_rgb.2.1 r.fill_color_rgb.2.2
  | ColorMode.CMYK =>
    PsLine.setcmykcolor r.fill_color_cmyk.1 r.fill_color_cmyk.2.1
      r.fill_color_cmyk.2.2.1 r.fill_color_cmyk.2.2.2

/-- The color-setting line of the stroke block, per the rect's stroke color mode. -/
def Rect.strokeColorLine (r : Rect) : PsLine :=
  match r.stroke_color_mode with
  | ColorMode.RGB =>
    PsLine.setrgbcolor r.stroke_color_rgb.1 r.stroke_color_rgb.2.1 r.stroke_color_rgb.2.2
  | ColorMode.CMYK =>
    PsLine.setcmykcolor r.stroke_color_cmyk.1 r.stroke_color_cmyk.2.1
      r.stroke_color_cmyk.2.2.1 r.stroke_color_cmyk.2.2.2

/-- `impl Serialize for Rect` (src/rect.rs): the emitted markup, line by line. -/
def Rect.to_postscript_string (r : Rect) : List PsLine :=
  (if (r.do_rotate || r.do_scale) = true then
    [PsLine.gsave, PsLine.translateTo r.originPoint.1 r.originPoint.2]
    ++ (if r.do_rotate = true then [PsLine.rotateCmd r.rotate] else [])
    ++ (if r.do_scale = true then [PsLine.scaleCmd r.scale.1 r.scale.2] else [])
    ++ [PsLine.translateBack r.originPoint.1 r.originPoint.2]
  else [])
  ++ [PsLine.rectPath r.width r.height r.x r.y]
  ++ (if r.do_fill = true then
    [PsLine.gsave, r.fillColorLine, PsLine.fillOp, PsLine.grestore]
  else [])
  ++ (if 0 < r.stroke_width then
    [PsLine.gsave, PsLine.setlinewidth r.stroke_width, r.strokeColorLine,
     PsLine.strokeOp, PsLine.grestore]
  else [])
  ++ (if (r.do_rotate || r.do_scale) = true then [PsLine.grestore] else [])

/-- src/line.rs `struct Line`. -/
structure Line where
  x : ℚ
  y : ℚ
  length : ℚ
  stroke_width : ℚ
  stroke_color_rgb : ℚ × ℚ × ℚ
  stroke_color_cmyk : ℚ × ℚ × ℚ × ℚ
  rotate : ℚ
  scale : ℚ × ℚ
  do_scale : Bool
  do_rotate : Bool
  transform_origin : TransformLineOrigin
  color_mode : ColorMode
deriving DecidableEq, Repr

/-- `Line::new` (src/line.rs): clamps geometry to ≥ 0, default stroke width 1. -/
def Line.new (x y length : ℚ) : Line where
  x := max x 0
  y := max y 0
  length := max length 0
  stroke_width := 1
  stroke_color_rgb := (0, 0, 0)
  stroke_color_cmyk := (0, 0, 0, 0)
  rotate := 0
  scale := (1, 1)
  do_scale := false
  do_rotate := false
  transform_origin := TransformLineOrigin.Center
  color_mode := ColorMode.RGB

/-- `Line::stroke_rgb`. -/
def Line.stroke_rgb (s : Line) (width r g b : ℚ) : Line :=
  { s with
    stroke_width := max width 0
    stroke_color_rgb := (clamp01 r, clamp01 g, clamp01 b)
    color_mode := ColorMode.RGB }

/-- `Line::stroke_cmyk`. -/
def Line.stroke_cmyk (s : Line) (width c m y k : ℚ) : Line :=
  { s with
    stroke_width := max width 0
    stroke_color_cmyk := (clamp01 c, clamp01 m, clamp01 y, clamp01 k)
    color_mode := ColorMode.CMYK }

/-- `Line::scale` (named `scaleBy` here because `scale` is the field name). -/
def Line.scaleBy (s : Line) (x y : ℚ) : Line :=
  { s with scale := (x, y), do_scale := true }

/-- `Line::set_orign`. -/
def Line.set_orign (s : Line) (origin : TransformLineOrigin) : Line :=
  { s with transform_origin := origin }

/-- `Line::rotate` (named `rotateBy` here because `rotate` is the field name). -/
def Line.rotateBy (s : Line) (angle : ℚ) : Line :=
  { s with rotate := rclamp (-360) 360 angle, do_rotate := true }

/-- The anchor point `Line::to_postscript_string` computes from the origin variant. -/
def Line.originPoint (l : Line) : ℚ × ℚ :=
  match l.transform_origin with
  | TransformLineOrigin.Left => (l.x, l.y + l.stroke_width / 2)
  | TransformLineOrigin.Center => (l.x + l.length / 2, l.y + l.stroke_width / 2)
  | TransformLineOrigin.Right => (l.x + l.length, l.y + l.stroke_width / 2)

/-- The color-setting line of the stroke block, per the line's color mode. -/
def Line.strokeColorLine (l : Line) : PsLine :=
  match l.color_mode with
  | ColorMode.RGB =>
    PsLine.setrgbcolor l.stroke_color_rgb.1 l.stroke_color_rgb.2.1 l.stroke_color_rgb.2.2
  | ColorMode.CMYK =>
    PsLine.setcmykcolor l.stroke_color_cmyk.1 l.stroke_color_cmyk.2.1
      l.stroke_color_cmyk.2.2.1 l.stroke_color_cmyk.2.2.2

/-- `impl Serialize for Line` (src/line.rs): the emitted markup, line by line.
Note the rotate directive is guarded by `self.rotate > 0.0 && self.rotate < 360.0`,
unlike Rect which only tests the `do_rotate` flag. -/
def Line.to_postscript_string (l : Line) : List PsLine :=
  (if (l.do_rotate || l.do_scale) = true then
    [PsLine.gsave, PsLine.translateTo l.originPoint.1 l.originPoint.2]
    ++ (if 0 < l.rotate ∧ l.rotate < 360 then [PsLine.rotateCmd l.rotate] else [])
    ++ (if l.do_scale = true then [PsLine.scaleCmd l.scale.1 l.scale.2] else [])
    ++ [PsLine.translateBack l.originPoint.1 l.originPoint.2]
  else [])
  ++ [PsLine.linePath l.length l.x l.y]
  ++ (if 0 < l.stroke_width then
    [PsLine.gsave, PsLine.setlinewidth l.stroke_width, l.strokeColorLine,
     PsLine.strokeOp, PsLine.grestore]
  else [])
  ++ (if (l.do_rotate || l.do_scale) = true then [PsLine.grestore] else [])

/-- Stack-depth contribution of one markup line: +1 for gsave, -1 for grestore. -/
def depthDelta : PsLine → Int
  | PsLine.gsave => 1
  | PsLine.grestore => -1
  | _ => 0

/-- Stack-depth simulator: starting from depth `d`, check the depth never
goes negative and ends at 0. -/
def balAux (d : Int) : List PsLine → Bool
  | [] => d == 0
  | ln :: ls => decide (0 ≤ d + depthDelta ln) && balAux (d + depthDelta ln) ls

/-- Save/restore balance of a piece of emitted markup. -/
def wellBalanced (ls : List PsLine) : Bool := balAux 0 ls

/-- Lines that only the transform prologue can emit. -/
def isTransformMarkup : PsLine → Bool
  | PsLine.translateTo _ _ => true
  | PsLine.translateBack _ _ => true
  | PsLine.rotateCmd _ => true
  | PsLine.scaleCmd _ _ => true
  | _ => false

def isGsave : PsLine → Bool
  | PsLine.gsave => true
  | _ => false

def isGrestore : PsLine → Bool
  | PsLine.grestore => true
  | _ => false

/-- Number of `gsave` lines in a piece of markup. -/
def gsaveCount (ls : List PsLine) : Nat := ls.countP isGsave

/-- Number of `grestore` lines in a piece of markup. -/
def grestoreCount (ls : List PsLine) : Nat := ls.countP isGrestore

/-- The angle a rotate directive carries, if the line is one. -/
def rotateArg : PsLine → Option ℚ
  | PsLine.rotateCmd a => some a
  | _ => none

/-- The angles of all rotate directives in a piece of markup, in order. -/
def rotateArgs (ls : List PsLine) : List ℚ := ls.filterMap rotateArg

/-- A color channel value in the unit interval. -/
def In01 (v : ℚ) : Prop := 0 ≤ v ∧ v ≤ 1

/-- Every channel argument of a color-setting directive lies in [0, 1]
(vacuously true for any other line). -/
def emittedColorOk : PsLine → Prop
  | PsLine.setrgbcolor a b c => In01 a ∧ In01 b ∧ In01 c
  | PsLine.setcmykcolor a b c d => In01 a ∧ In01 b ∧ In01 c ∧ In01 d
  | _ => True

/-- All stored color channels of a Rect lie in [0, 1]. -/
def Rect.ColorsWF (r : Rect) : Prop :=
  In01 r.stroke_color_rgb.1 ∧ In01 r.stroke_color_rgb.2.1 ∧ In01 r.stroke_color_rgb.2.2 ∧
  In01 r.stroke_color_cmyk.1 ∧ In01 r.stroke_color_cmyk.2.1 ∧
  In01 r.stroke_color_cmyk.2.2.1 ∧ In01 r.stroke_color_cmyk.2.2.2 ∧
  In01 r.fill_color_rgb.1 ∧ In01 r.fill_color_rgb.2.1 ∧ In01 r.fill_color_rgb.2.2 ∧
  In01 r.fill_color_cmyk.1 ∧ In01 r.fill_color_cmyk.2.1 ∧
  In01 r.fill_color_cmyk.2.2.1 ∧ In01 r.fill_color_cmyk.2.2.2

/-- All stored color channels of a Line lie in [0, 1]. -/
def Line.ColorsWF (l : Line) : Prop :=
  In01 l.stroke_color_rgb.1 ∧ In01 l.stroke_color_rgb.2.1 ∧ In01 l.stroke_color_rgb.2.2 ∧
  In01 l.stroke_color_cmyk.1 ∧ In01 l.stroke_color_cmyk.2.1 ∧
  In01 l.stroke_color_cmyk.2.2.1 ∧ In01 l.stroke_color_cmyk.2.2.2

/-
The I/O side.  A `write_all` call on the sink either appends its chunk or
fails with an `std::io::Error`; we model errors as opaque `Nat` codes and a
sink as a write log plus an optional index of the one write that fails.
`BufWriter::flush` is modelled as one more fallible sink operation that
appends a marker instead of bytes.
-/

/-- One `write_all` (or `flush`) call's payload. -/
inductive Chunk
  | lines (ls : List PsLine)
  | flushMark
deriving DecidableEq, Repr

/-- The markup lines a chunk carries (`flushMark` carries none). -/
def Chunk.content : Chunk → List PsLine
  | Chunk.lines ls => ls
  | Chunk.flushMark => []

/-- An output sink: how many writes happened, the log of chunks written, and
an optional schedule entry `failIdx = some k` making the k-th write (0-based,
counted over the sink's whole lifetime) fail with error code `err`. -/
structure Sink where
  idx : Nat
  written : List Chunk
  failIdx : Option Nat
  err : Nat
deriving DecidableEq, Repr

/-- A sink that never fails and has seen no writes. -/
def freshSink : Sink := ⟨0, [], none, 0⟩

/-- A sink whose k-th write fails with error code `e`. -/
def failSink (k : Nat) (e : Nat) : Sink := ⟨0, [], some k, e⟩

/-- One `write_all` call: fails exactly when the schedule says so; on failure
the sink is left as it was (the chunk is not appended). -/
def writeAll (s : Sink) (c : Chunk) : Except Nat Unit × Sink :=
  if s.failIdx = some s.idx then (Except.error s.err, s)
  else (Except.ok (), ⟨s.idx + 1, s.written ++ [c], s.failIdx, s.err⟩)

/-- A sequence of `write_all` calls chained by `?`: stops at the first error
and returns it unchanged. -/
def runWrites (s : Sink) : List Chunk → Except Nat Unit × Sink
  | [] => (Except.ok (), s)
  | c :: cs =>
    match writeAll s c with
    | (Except.error e, s2) => (Except.error e, s2)
    | (Except.ok _, s2) => runWrites s2 cs

/-- All markup lines a sink has received, in order. -/
def sinkLines (s : Sink) : List PsLine := (s.written.map Chunk.content).flatten

/-- src/lib.rs `struct Procedure`. -/
structure Procedure where
  name : String
  body : String
deriving DecidableEq, Repr

/-- The procedure registry, modelled as the ordered list `list_procedures`
returns (the source stores a `HashMap` whose iteration order is unspecified;
no claim here depends on that order). -/
def ProcedureRegistry := List Procedure

/-- src/page.rs `struct Page`: declared size (clamped to ≥ 1) plus the
append-only buffer of serialized shape markup. -/
structure Page where
  width : Int
  height : Int
  buffer : List PsLine
deriving DecidableEq, Repr

/-- `Page::new`. -/
def Page.new (width height : Int) : Page := ⟨max width 1, max height 1, []⟩

/-- `Page::add`: appends a shape's serialized markup to the page buffer
(writing to a `Vec` cannot fail, so this is total). -/
def Page.add (p : Page) (item : List PsLine) : Page :=
  { p with buffer := p.buffer ++ item }

/-- The three `write` calls of `Page::fabricate` (src/page.rs): the
page-bounding-box + page-size header, the buffered shape markup, `showpage`. -/
def Page.fabricateChunks (p : Page) : List Chunk :=
  [Chunk.lines [PsLine.pageBoundingBox p.width p.height, PsLine.pageSize p.width p.height],
   Chunk.lines p.buffer,
   Chunk.lines [PsLine.showpage]]

/-- All markup lines `Page::fabricate` writes for a page, in order. -/
def Page.fabricateLines (p : Page) : List PsLine :=
  [PsLine.pageBoundingBox p.width p.height, PsLine.pageSize p.width p.height]
  ++ p.buffer ++ [PsLine.showpage]

/-- src/lib.rs `struct Document`. -/
structure Document where
  doc_type : DocumentType
  sink : Sink
  page_count : Nat
deriving DecidableEq, Repr

/-- The header chunks `Document::new` writes: the fixed PS header (one
`write_all`), then one chunk per registry procedure (body plus newline). -/
def Document.newChunks (reg : ProcedureRegistry) : List Chunk :=
  Chunk.lines [PsLine.bannerPS, PsLine.creator, PsLine.creationDate,
               PsLine.pagesAtEnd, PsLine.endComments]
  :: reg.map (fun p => Chunk.lines [PsLine.procedureDef p.name p.body])

/-- `Document::new` (src/lib.rs): writes the PS header and procedure preamble
with `.unwrap()`, so a write error panics — modelled as `none` — instead of
being returned to the caller. -/
def Document.new (s : Sink) (reg : ProcedureRegistry) : Option Document :=
  match runWrites s (Document.newChunks reg) with
  | (Except.ok _, s2) => some ⟨DocumentType.PS, s2, 0⟩
  | (Except.error _, _) => none

/-- The result of `Document::new` on a sink that does not fail. -/
def Document.newOk (s : Sink) (reg : ProcedureRegistry) : Document :=
  ⟨DocumentType.PS, (runWrites s (Document.newChunks reg)).2, 0⟩

/-- The chunks one `Document::add` call attempts: for the PS kind the
`%%Page` directive (printed with the already-incremented counter), then the
page's three fabricate writes; for EPS just the fabricate writes. -/
def Document.addChunks (d : Document) (p : Page) : List Chunk :=
  match d.doc_type with
  | DocumentType.PS =>
    Chunk.lines [PsLine.pageDirective (d.page_count + 1) (d.page_count + 1)]
    :: p.fabricateChunks
  | DocumentType.EPS => p.fabricateChunks

/-- `Document::add` (src/lib.rs): for the PS kind increments the page counter
and writes `%%Page: n n` with the incremented value, then fabricates the
page; every write error is returned unchanged via `?`. -/
def Document.add (d : Document) (p : Page) : Except Nat Unit × Document :=
  let count2 := match d.doc_type with
    | DocumentType.PS => d.page_count + 1
    | DocumentType.EPS => d.page_count
  let r := runWrites d.sink (d.addChunks p)
  (r.1, ⟨d.doc_type, r.2, count2⟩)

/-- Folding `Document::add` over a list of pages (errors ignored by the
caller, as the integration tests do with `let _ = doc.add(&page)`). -/
def Document.addAll (d : Document) : List Page → Document
  | [] => d
  | p :: ps => ((d.add p).2).addAll ps

/-- `Document::close` (src/lib.rs): writes `%%EOF` then flushes, each
propagating its error via `?`. -/
def Document.close (d : Document) : Except Nat Unit × Sink :=
  runWrites d.sink [Chunk.lines [PsLine.eofComment], Chunk.flushMark]

/-- src/lib.rs `struct DocumentBuilder`. -/
structure DocumentBuilder where
  doc_type : DocumentType
  buffer : Option Sink
  width : Int
  height : Int
  registry : ProcedureRegistry

/-- `DocumentBuilder::builder`. -/
def DocumentBuilder.builder : DocumentBuilder :=
  ⟨DocumentType.PS, none, 0, 0, []⟩

/-- `DocumentBuilder::bounding_box`: clamps both sides to ≥ 1. -/
def DocumentBuilder.bounding_box (b : DocumentBuilder) (width height : Int) : DocumentBuilder :=
  { b with width := max width 1, height := max height 1 }

/-- `DocumentBuilder::document_type`. -/
def DocumentBuilder.document_type (b : DocumentBuilder) (t : DocumentType) : DocumentBuilder :=
  { b with doc_type := t }

/-- `DocumentBuilder::writer`. -/
def DocumentBuilder.writer (b : DocumentBuilder) (s : Sink) : DocumentBuilder :=
  { b with buffer := some s }

/-- `DocumentBuilder::load_procedures`. -/
def DocumentBuilder.load_procedures (b : DocumentBuilder) (reg : ProcedureRegistry) : DocumentBuilder :=
  { b with registry := reg }

/-- The header lines `DocumentBuilder::build` emits for each document kind.
Note the EPS header has a bounding box but no `%%Pages` line at all. -/
def DocumentBuilder.headerLines (b : DocumentBuilder) : List PsLine :=
  match b.doc_type with
  | DocumentType.PS =>
    [PsLine.bannerPS, PsLine.creator, PsLine.creationDate,
     PsLine.pagesAtEnd, PsLine.endComments]
  | DocumentType.EPS =>
    [PsLine.bannerEPS, PsLine.boundingBox b.width b.height,
     PsLine.creator, PsLine.creationDate, PsLine.endComments]

/-- The chunks `DocumentBuilder::build` writes: the kind-specific header,
then one chunk per registry procedure. -/
def DocumentBuilder.buildChunks (b : DocumentBuilder) : List Chunk :=
  Chunk.lines b.headerLines
  :: b.registry.map (fun p => Chunk.lines [PsLine.procedureDef p.name p.body])

/-- `DocumentBuilder::build` (src/lib.rs): `Option::expect` on the missing
writer and `.unwrap()` on every header write panic — modelled as `none` —
rather than return an error. -/
def DocumentBuilder.build (b : DocumentBuilder) : Option Document :=
  match b.buffer with
  | none => none
  | some s =>
    match runWrites s b.buildChunks with
    | (Except.ok _, s2) => some ⟨b.doc_type, s2, 0⟩
    | (Except.error _, _) => none

/-- The result of `DocumentBuilder::build` when a writer is set and does not fail. -/
def DocumentBuilder.buildOk (b : DocumentBuilder) (s : Sink) : Document :=
  ⟨b.doc_type, (runWrites s b.buildChunks).2, 0⟩

/-
Helper lemmas.
-/

/-- Evaluation of `depthDelta` on every line the serializers emit. -/
theorem depthDelta_eqns :
    depthDelta PsLine.gsave = 1 ∧ depthDelta PsLine.grestore = -1 ∧
    (∀ x y, depthDelta (PsLine.translateTo x y) = 0) ∧
    (∀ x y, depthDelta (PsLine.translateBack x y) = 0) ∧
    (∀ a, depthDelta (PsLine.rotateCmd a) = 0) ∧
    (∀ x y, depthDelta (PsLine.scaleCmd x y) = 0) ∧
    (∀ w h x y, depthDelta (PsLine.rectPath w h x y) = 0) ∧
    (∀ a x y, depthDelta (PsLine.linePath a x y) = 0) ∧
    (∀ a b c, depthDelta (PsLine.setrgbcolor a b c) = 0) ∧
    (∀ a b c d, depthDelta (PsLine.setcmykcolor a b c d) = 0) ∧
    (∀ w, depthDelta (PsLine.setlinewidth w) = 0) ∧
    depthDelta PsLine.fillOp = 0 ∧ depthDelta PsLine.strokeOp = 0 :=
  ⟨rfl, rfl, fun _ _ => rfl, fun _ _ => rfl, fun _ => rfl, fun _ _ => rfl,
   fun _ _ _ _ => rfl, fun _ _ _ => rfl, fun _ _ _ => rfl, fun _ _ _ _ => rfl,
   fun _ => rfl, rfl, rfl⟩

/-- Evaluation of `isGsave` on every line the serializers emit. -/
theorem isGsave_eqns :
    isGsave PsLine.gsave = true ∧ isGsave PsLine.grestore = false ∧
    (∀ x y, isGsave (PsLine.translateTo x y) = false) ∧
    (∀ x y, isGsave (PsLine.translateBack x y) = false) ∧
    (∀ a, isGsave (PsLine.rotateCmd a) = false) ∧
    (∀ x y, isGsave (PsLine.scaleCmd x y) = false) ∧
    (∀ w h x y, isGsave (PsLine.rectPath w h x y) = false) ∧
    (∀ a x y, isGsave (PsLine.linePath a x y) = false) ∧
    (∀ a b c, isGsave (PsLine.setrgbcolor a b c) = false) ∧
    (∀ a b c d, isGsave (PsLine.setcmykcolor a b c d) = false) ∧
    (∀ w, isGsave (PsLine.setlinewidth w) = false) ∧
    isGsave PsLine.fillOp = false ∧ isGsave PsLine.strokeOp = false :=
  ⟨rfl, rfl, fun _ _ => rfl, fun _ _ => rfl, fun _ => rfl, fun _ _ => rfl,
   fun _ _ _ _ => rfl, fun _ _ _ => rfl, fun _ _ _ => rfl, fun _ _ _ _ => rfl,
   fun _ => rfl, rfl, rfl⟩

/-- Evaluation of `isGrestore` on every line the serializers emit. -/
theorem isGrestore_eqns :
    isGrestore PsLine.gsave = false ∧ isGrestore PsLine.grestore = true ∧
    (∀ x y, isGrestore (PsLine.translateTo x y) = false) ∧
    (∀ x y, isGrestore (PsLine.translateBack x y) = false) ∧
    (∀ a, isGrestore (PsLine.rotateCmd a) = false) ∧
    (∀ x y, isGrestore (PsLine.scaleCmd x y) = false) ∧
    (∀ w h x y, isGrestore (PsLine.rectPath w h x y) = false) ∧
    (∀ a x y, isGrestore (PsLine.linePath a x y) = false) ∧
    (∀ a b c, isGrestore (PsLine.setrgbcolor a b c) = false) ∧
    (∀ a b c d, isGrestore (PsLine.setcmykcolor a b c d) = false) ∧
    (∀ w, isGrestore (PsLine.setlinewidth w) = false) ∧
    isGrestore PsLine.fillOp = false ∧ isGrestore PsLine.strokeOp = false :=
  ⟨rfl, rfl, fun _ _ => rfl, fun _ _ => rfl, fun _ => rfl, fun _ _ => rfl,
   fun _ _ _ _ => rfl, fun _ _ _ => rfl, fun _ _ _ => rfl, fun _ _ _ _ => rfl,
   fun _ => rfl, rfl, rfl⟩

/-- Evaluation of `isTransformMarkup` on every line the serializers emit. -/
theorem isTransformMarkup_eqns :
    isTransformMarkup PsLine.gsave = false ∧ isTransformMarkup PsLine.grestore = false ∧
    (∀ x y, isTransformMarkup (PsLine.translateTo x y) = true) ∧
    (∀ x y, isTransformMarkup (PsLine.translateBack x y) = true) ∧
    (∀ a, isTransformMarkup (PsLine.rotateCmd a) = true) ∧
    (∀ x y, isTransformMarkup (PsLine.scaleCmd x y) = true) ∧
    (∀ w h x y, isTransformMarkup (PsLine.rectPath w h x y) = false) ∧
    (∀ a x y, isTransformMarkup (PsLine.linePath a x y) = false) ∧
    (∀ a b c, isTransformMarkup (PsLine.setrgbcolor a b c) = false) ∧
    (∀ a b c d, isTransformMarkup (PsLine.setcmykcolor a b c d) = false) ∧
    (∀ w, isTransformMarkup (PsLine.setlinewidth w) = false) ∧
    isTransformMarkup PsLine.fillOp = false ∧ isTransformMarkup PsLine.strokeOp = false :=
  ⟨rfl, rfl, fun _ _ => rfl, fun _ _ => rfl, fun _ => rfl, fun _ _ => rfl,
   fun _ _ _ _ => rfl, fun _ _ _ => rfl, fun _ _ _ => rfl, fun _ _ _ _ => rfl,
   fun _ => rfl, rfl, rfl⟩

/-- Evaluation of `rotateArg` on every non-rotate line the serializers emit. -/
theorem rotateArg_eqns :
    rotateArg PsLine.gsave = none ∧ rotateArg PsLine.grestore = none ∧
    (∀ x y, rotateArg (PsLine.translateTo x y) = none) ∧
    (∀ x y, rotateArg (PsLine.translateBack x y) = none) ∧
    (∀ a, rotateArg (PsLine.rotateCmd a) = some a) ∧
    (∀ x y, rotateArg (PsLine.scaleCmd x y) = none) ∧
    (∀ w h x y, rotateArg (PsLine.rectPath w h x y) = none) ∧
    (∀ a x y, rotateArg (PsLine.linePath a x y) = none) ∧
    (∀ a b c, rotateArg (PsLine.setrgbcolor a b c) = none) ∧
    (∀ a b c d, rotateArg (PsLine.setcmykcolor a b c d) = none) ∧
    (∀ w, rotateArg (PsLine.setlinewidth w) = none) ∧
    rotateArg PsLine.fillOp = none ∧ rotateArg PsLine.strokeOp = none :=
  ⟨rfl, rfl, fun _ _ => rfl, fun _ _ => rfl, fun _ => rfl, fun _ _ => rfl,
   fun _ _ _ _ => rfl, fun _ _ _ => rfl, fun _ _ _ => rfl, fun _ _ _ _ => rfl,
   fun _ => rfl, rfl, rfl⟩

/-- The fill-block color line is never a save, restore, transform or rotate line. -/
theorem rect_fillColorLine_aux (r : Rect) :
    depthDelta r.fillColorLine = 0 ∧ isGsave r.fillColorLine = false ∧
    isGrestore r.fillColorLine = false ∧ isTransformMarkup r.fillColorLine = false ∧
    rotateArg r.fillColorLine = none := by
  cases h : r.fill_color_mode <;>
    simp [Rect.fillColorLine, h, depthDelta, isGsave, isGrestore, isTransformMarkup, rotateArg]

/-- The rect stroke-block color line is never a save, restore, transform or rotate line. -/
theorem rect_strokeColorLine_aux (r : Rect) :
    depthDelta r.strokeColorLine = 0 ∧ isGsave r.strokeColorLine = false ∧
    isGrestore r.strokeColorLine = false ∧ isTransformMarkup r.strokeColorLine = false ∧
    rotateArg r.strokeColorLine = none := by
  cases h : r.stroke_color_mode <;>
    simp [Rect.strokeColorLine, h, depthDelta, isGsave, isGrestore, isTransformMarkup, rotateArg]

/-- The line stroke-block color line is never a save, restore, transform or rotate line. -/
theorem line_strokeColorLine_aux (l : Line) :
    depthDelta l.strokeColorLine = 0 ∧ isGsave l.strokeColorLine = false ∧
    isGrestore l.strokeColorLine = false ∧ isTransformMarkup l.strokeColorLine = false ∧
    rotateArg l.strokeColorLine = none := by
  cases h : l.color_mode <;>
    simp [Line.strokeColorLine, h, depthDelta, isGsave, isGrestore, isTransformMarkup, rotateArg]

/-- Clamping any input to [0, 1] lands in the unit interval. -/
theorem In01_clamp01 (v : ℚ) : In01 (clamp01 v) :=
  ⟨le_max_left _ _, max_le (by norm_num) (min_le_left _ _)⟩

/-- `emittedColorOk` holds vacuously on every non-color line the serializers emit. -/
theorem emittedColorOk_neutral :
    emittedColorOk PsLine.gsave ∧ emittedColorOk PsLine.grestore ∧
    (∀ x y, emittedColorOk (PsLine.translateTo x y)) ∧
    (∀ x y, emittedColorOk (PsLine.translateBack x y)) ∧
    (∀ a, emittedColorOk (PsLine.rotateCmd a)) ∧
    (∀ x y, emittedColorOk (PsLine.scaleCmd x y)) ∧
    (∀ w h x y, emittedColorOk (PsLine.rectPath w h x y)) ∧
    (∀ a x y, emittedColorOk (PsLine.linePath a x y)) ∧
    (∀ w, emittedColorOk (PsLine.setlinewidth w)) ∧
    emittedColorOk PsLine.fillOp ∧ emittedColorOk PsLine.strokeOp :=
  ⟨trivial, trivial, fun _ _ => trivial, fun _ _ => trivial, fun _ => trivial,
   fun _ _ => trivial, fun _ _ _ _ => trivial, fun _ _ _ => trivial, fun _ => trivial,
   trivial, trivial⟩

/-- With well-formed stored colors, the rect fill color line emits channels in [0, 1]. -/
theorem emittedColorOk_rect_fillColorLine (r : Rect) (h : r.ColorsWF) :
    emittedColorOk r.fillColorLine := by
  obtain ⟨_, _, _, _, _, _, _, h8, h9, h10, h11, h12, h13, h14⟩ := h
  cases hm : r.fill_color_mode
  · simp only [Rect.fillColorLine, hm, emittedColorOk]
    exact ⟨h11, h12, h13, h14⟩
  · simp only [Rect.fillColorLine, hm, emittedColorOk]
    exact ⟨h8, h9, h10⟩

/-- With well-formed stored colors, the rect stroke color line emits channels in [0, 1]. -/
theorem emittedColorOk_rect_strokeColorLine (r : Rect) (h : r.ColorsWF) :
    emittedColorOk r.strokeColorLine := by
  obtain ⟨h1, h2, h3, h4, h5, h6, h7, _⟩ := h
  cases hm : r.stroke_color_mode
  · simp only [Rect.strokeColorLine, hm, emittedColorOk]
    exact ⟨h4, h5, h6, h7⟩
  · simp only [Rect.strokeColorLine, hm, emittedColorOk]
    exact ⟨h1, h2, h3⟩

/-- With well-formed stored colors, the line stroke color line emits channels in [0, 1]. -/
theorem emittedColorOk_line_strokeColorLine (l : Line) (h : l.ColorsWF) :
    emittedColorOk l.strokeColorLine := by
  obtain ⟨h1, h2, h3, h4, h5, h6, h7⟩ := h
  cases hm : l.color_mode
  · simp only [Line.strokeColorLine, hm, emittedColorOk]
    exact ⟨h4, h5, h6, h7⟩
  · simp only [Line.strokeColorLine, hm, emittedColorOk]
    exact ⟨h1, h2, h3⟩

/-- Flattening a map to singleton lists is just the map. -/
theorem flatten_map_singleton {α β : Type} (f : α → β) (xs : List α) :
    (xs.map fun x => [f x]).flatten = xs.map f := by
  induction xs with
  | nil => simp
  | cons x xs ih => simp [ih]

/-- The lines carried by a list of single-line chunks, as one flat list. -/
theorem flatten_map_content_lines {α : Type} (f : α → PsLine) (xs : List α) :
    (List.map (Chunk.content ∘ fun p => Chunk.lines [f p]) xs).flatten = xs.map f := by
  induction xs with
  | nil => simp
  | cons x xs ih => simpa [Chunk.content] using ih

theorem writeAll_noFail (s : Sink) (c : Chunk) (h : s.failIdx = none) :
    writeAll s c = (Except.ok (), ⟨s.idx + 1, s.written ++ [c], s.failIdx, s.err⟩) := by
  simp [writeAll, h]

theorem runWrites_noFail (cs : List Chunk) (s : Sink) (h : s.failIdx = none) :
    runWrites s cs = (Except.ok (), ⟨s.idx + cs.length, s.written ++ cs, s.failIdx, s.err⟩) := by
  induction cs generalizing s with
  | nil => rw [runWrites]; simp
  | cons c cs ih =>
    rw [runWrites, writeAll_noFail s c h]
    show runWrites ⟨s.idx + 1, s.written ++ [c], s.failIdx, s.err⟩ cs = _
    rw [ih ⟨s.idx + 1, s.written ++ [c], s.failIdx, s.err⟩ h]
    simp [List.append_assoc]
    omega

/-- When the schedule makes the (idx+k)-th write fail and the operation has
more than k chunks, the operation returns the sink's error value unchanged,
and exactly the first k chunks were written — no retry, no recovery. -/
theorem runWrites_fail (cs : List Chunk) (s : Sink) (k : Nat)
    (hk : s.failIdx = some (s.idx + k)) (hlen : k < cs.length) :
    runWrites s cs =
      (Except.error s.err, ⟨s.idx + k, s.written ++ cs.take k, s.failIdx, s.err⟩) := by
  induction cs generalizing s k with
  | nil => simp at hlen
  | cons c cs ih =>
    match k with
    | 0 =>
      have hk0 : s.failIdx = some s.idx := by simpa using hk
      rw [runWrites, writeAll, if_pos hk0]
      simp
    | k + 1 =>
      have hne : ¬ s.failIdx = some s.idx := by
        rw [hk]; intro hcon
        have : s.idx + (k + 1) = s.idx := Option.some.inj hcon
        omega
      rw [runWrites, writeAll, if_neg hne]
      show runWrites ⟨s.idx + 1, s.written ++ [c], s.failIdx, s.err⟩ cs = _
      have hk2 : (Sink.mk (s.idx + 1) (s.written ++ [c]) s.failIdx s.err).failIdx
          = some ((Sink.mk (s.idx + 1) (s.written ++ [c]) s.failIdx s.err).idx + k) := by
        simp [hk]; omega
      have hlen2 : k < cs.length := by simpa using hlen
      rw [ih ⟨s.idx + 1, s.written ++ [c], s.failIdx, s.err⟩ k hk2 hlen2]
      simp [List.append_assoc]
      omega

/-- Any line in the sink after a `runWrites` was either already there or
belongs to one of the attempted chunks. -/
theorem runWrites_written_sub (cs : List Chunk) (s : Sink) (c : Chunk)
    (hc : c ∈ (runWrites s cs).2.written) : c ∈ s.written ∨ c ∈ cs := by
  induction cs generalizing s with
  | nil => simp [runWrites] at hc; exact Or.inl hc
  | cons c0 cs ih =>
    rw [runWrites, writeAll] at hc
    by_cases hf : s.failIdx = some s.idx
    · simp [hf] at hc
      exact Or.inl hc
    · simp [hf] at hc
      rcases ih ⟨s.idx + 1, s.written ++ [c0], s.failIdx, s.err⟩ hc with h | h
      · simp at h
        rcases h with h | h
        · exact Or.inl h
        · exact Or.inr (by simp [h])
      · exact Or.inr (by simp [h])

theorem sinkLines_mk (i : Nat) (w : List Chunk) (f : Option Nat) (e : Nat) :
    sinkLines ⟨i, w, f, e⟩ = (w.map Chunk.content).flatten := rfl

theorem sinkLines_append (i : Nat) (w v : List Chunk) (f : Option Nat) (e : Nat) :
    sinkLines ⟨i, w ++ v, f, e⟩
      = sinkLines ⟨i, w, f, e⟩ ++ (v.map Chunk.content).flatten := by
  simp [sinkLines_mk]

theorem mem_sinkLines (s : Sink) (x : PsLine) (hx : x ∈ sinkLines s) :
    ∃ c ∈ s.written, x ∈ c.content := by
  simp only [sinkLines, List.mem_flatten, List.mem_map] at hx
  obtain ⟨ls, ⟨c, hc, hls⟩, hxl⟩ := hx
  exact ⟨c, hc, hls ▸ hxl⟩

theorem mem_sinkLines_of (s : Sink) (x : PsLine) (c : Chunk)
    (hc : c ∈ s.written) (hx : x ∈ c.content) : x ∈ sinkLines s := by
  simp only [sinkLines, List.mem_flatten, List.mem_map]
  exact ⟨c.content, ⟨c, hc, rfl⟩, hx⟩

theorem Document.new_eq_newOk (s : Sink) (reg : ProcedureRegistry) (h : s.failIdx = none) :
    Document.new s reg = some (Document.newOk s reg) := by
  simp [Document.new, Document.newOk, runWrites_noFail _ s h]

theorem DocumentBuilder.build_eq_buildOk (b : DocumentBuilder) (s : Sink)
    (hb : b.buffer = some s) (h : s.failIdx = none) :
    b.build = some (b.buildOk s) := by
  simp [DocumentBuilder.build, DocumentBuilder.buildOk, hb, runWrites_noFail _ s h]

/-
Claim theorems.
-/

/-- C1: for every Rect and every Line, in every configuration of fill,
stroke, rotation and scale, the emitted markup is save/restore balanced: a
stack-depth count over the emitted lines never goes negative and ends at 0,
the number of `gsave` lines equals the number of `grestore` lines, and when
neither rotation nor scale is enabled no transform-block save-state is
emitted at all (no transform markup appears, and the only `gsave` lines are
the one per fill block and the one per stroke block). -/
theorem c1_save_restore_balance :
    (∀ r : Rect, wellBalanced r.to_postscript_string = true ∧
      gsaveCount r.to_postscript_string = grestoreCount r.to_postscript_string) ∧
    (∀ l : Line, wellBalanced l.to_postscript_string = true ∧
      gsaveCount l.to_postscript_string = grestoreCount l.to_postscript_string) ∧
    (∀ r : Rect, r.do_rotate = false → r.do_scale = false →
      r.to_postscript_string.filter isTransformMarkup = [] ∧
      gsaveCount r.to_postscript_string
        = (if r.do_fill = true then 1 else 0) + (if 0 < r.stroke_width then 1 else 0)) ∧
    (∀ l : Line, l.do_rotate = false → l.do_scale = false →
      l.to_postscript_string.filter isTransformMarkup = [] ∧
      gsaveCount l.to_postscript_string = (if 0 < l.stroke_width then 1 else 0)) := by
  refine ⟨?_, ?_, ?_, ?_⟩
  · intro r
    rcases hdr : r.do_rotate <;> rcases hds : r.do_scale <;> rcases hdf : r.do_fill <;>
      by_cases hsw : (0 : ℚ) < r.stroke_width <;>
      simp [Rect.to_postscript_string, wellBalanced, balAux,
        gsaveCount, grestoreCount, List.countP_cons, depthDelta_eqns, isGsave_eqns,
        isGrestore_eqns, rect_fillColorLine_aux r, rect_strokeColorLine_aux r,
        hdr, hds, hdf, hsw]
  · intro l
    rcases hdr : l.do_rotate <;> rcases hds : l.do_scale <;>
      by_cases hsw : (0 : ℚ) < l.stroke_width <;>
      by_cases hrot : (0 : ℚ) < l.rotate ∧ l.rotate < 360 <;>
      simp [Line.to_postscript_string, wellBalanced, balAux,
        gsaveCount, grestoreCount, List.countP_cons, depthDelta_eqns, isGsave_eqns,
        isGrestore_eqns, line_strokeColorLine_aux l, hdr, hds, hsw, hrot]
  · intro r hdr hds
    rcases hdf : r.do_fill <;>
      by_cases hsw : (0 : ℚ) < r.stroke_width <;>
      simp [Rect.to_postscript_string, gsaveCount, List.countP_cons, isGsave_eqns,
        isTransformMarkup_eqns, rect_fillColorLine_aux r, rect_strokeColorLine_aux r,
        hdr, hds, hdf, hsw]
  · intro l hdr hds
    by_cases hsw : (0 : ℚ) < l.stroke_width <;>
      simp [Line.to_postscript_string, gsaveCount, List.countP_cons, isGsave_eqns,
        isTransformMarkup_eqns, line_strokeColorLine_aux l, hdr, hds, hsw]

/-- C1 witness: the balance theorem applied at concrete shapes, with the
no-transform hypotheses discharged at `Rect.new 1 2 3 4`. -/
theorem c1_witness :
    (Rect.new 1 2 3 4).do_rotate = false ∧ (Rect.new 1 2 3 4).do_scale = false ∧
    (Rect.new 1 2 3 4).to_postscript_string.filter isTransformMarkup = [] ∧
    wellBalanced (Line.new 0 0 5).to_postscript_string = true ∧
    (Line.new 0 0 5).to_postscript_string.filter isTransformMarkup = [] :=
  ⟨rfl, rfl, (c1_save_restore_balance.2.2.1 (Rect.new 1 2 3 4) rfl rfl).1,
    (c1_save_restore_balance.2.1 (Line.new 0 0 5)).1,
    (c1_save_restore_balance.2.2.2 (Line.new 0 0 5) rfl rfl).1⟩

/-- C2 counterexample: the claim says a rotate directive is emitted only when
the clamped angle is neither 0 nor ±360, but `Rect::rotate(0.0)` stores the
clamped angle 0 and `to_postscript_string` still emits a `0 rotate`
directive, because the Rect serializer tests only the `do_rotate` flag. -/
theorem c2_counterexample :
    ((Rect.new 0 0 10 10).rotateBy 0).rotate = 0 ∧
    PsLine.rotateCmd 0 ∈ ((Rect.new 0 0 10 10).rotateBy 0).to_postscript_string := by
  decide

/-- C2 (amended): after `rotate(angle)`, a Rect emits exactly one rotate
directive carrying the clamped angle verbatim, for every clamped value in
[-360, 360] including 0 and ±360; a Line emits a rotate directive if and
only if its clamped angle lies strictly between 0 and 360 (so 0, ±360 and
all negative angles emit none), again carrying the clamped angle verbatim. -/
theorem c2_amended_rotate_emission :
    (∀ (r : Rect) (a : ℚ),
      rotateArgs (r.rotateBy a).to_postscript_string = [rclamp (-360) 360 a]) ∧
    (∀ (l : Line) (a : ℚ),
      rotateArgs (l.rotateBy a).to_postscript_string =
        if 0 < rclamp (-360) 360 a ∧ rclamp (-360) 360 a < 360
        then [rclamp (-360) 360 a] else []) := by
  constructor
  · intro r a
    rcases hds : r.do_scale <;> rcases hdf : r.do_fill <;>
      by_cases hsw : (0 : ℚ) < r.stroke_width <;>
      simp [Rect.rotateBy, Rect.to_postscript_string, rotateArgs, List.filterMap_cons,
        rotateArg_eqns, rect_fillColorLine_aux, rect_strokeColorLine_aux,
        hds, hdf, hsw]
  · intro l a
    rcases hds : l.do_scale <;>
      by_cases hsw : (0 : ℚ) < l.stroke_width <;>
      by_cases hrot : (0 : ℚ) < rclamp (-360) 360 a ∧ rclamp (-360) 360 a < 360 <;>
      simp [Line.rotateBy, Line.to_postscript_string, rotateArgs, List.filterMap_cons,
        rotateArg_eqns, line_strokeColorLine_aux, hds, hsw, hrot]

/-- C3: a multi-page (PS) document built by `Document::new` to which two
pages are added in sequence emits `%%Page: 1 1` and later `%%Page: 2 2`, in
that order, regardless of the pages' content and of the procedure registry. -/
theorem c3_two_pages_directives (reg : ProcedureRegistry) (p1 p2 : Page) :
    ∃ pre mid post,
      sinkLines (((Document.newOk freshSink reg).add p1).2.add p2).2.sink
        = pre ++ PsLine.pageDirective 1 1 :: (mid ++ PsLine.pageDirective 2 2 :: post) := by
  refine ⟨((Document.newChunks reg).map Chunk.content).flatten,
    p1.fabricateLines, p2.fabricateLines, ?_⟩
  simp [Document.newOk, Document.add, Document.addChunks, runWrites_noFail, freshSink,
    sinkLines, Page.fabricateChunks, Page.fabricateLines, Chunk.content]

/-- C4 counterexample: the claim says the page-number directive uses the
pre-increment counter value, which for the first page of a fresh document
(counter 0) would be `%%Page: 0 0`; the code emits `%%Page: 1 1` instead,
because `Document::add` increments the counter before printing it. -/
theorem c4_counterexample :
    PsLine.pageDirective 0 0 ∉
      sinkLines ((Document.newOk freshSink []).add (Page.new 1 1)).2.sink ∧
    PsLine.pageDirective 1 1 ∈
      sinkLines ((Document.newOk freshSink []).add (Page.new 1 1)).2.sink := by
  decide

/-- C4 (amended): for the multi-page kind, each `Document::add` increments
the page counter and prefixes a page-number directive that uses the
post-increment counter value (the value after the increment) as both sheet
index and ordinal. -/
theorem c4_add_post_increment (d : Document) (p : Page)
    (h1 : d.doc_type = DocumentType.PS) (h2 : d.sink.failIdx = none) :
    (d.add p).2.page_count = d.page_count + 1 ∧
    sinkLines (d.add p).2.sink
      = sinkLines d.sink
        ++ PsLine.pageDirective (d.page_count + 1) (d.page_count + 1) :: p.fabricateLines := by
  constructor
  · simp [Document.add, h1]
  · simp [Document.add, Document.addChunks, h1, runWrites_noFail _ _ h2, sinkLines,
      Page.fabricateChunks, Page.fabricateLines, Chunk.content]

/-- C4 witness: the amended theorem applied to a fresh PS document. -/
theorem c4_add_post_increment_witness :
    (Document.newOk freshSink []).doc_type = DocumentType.PS ∧
    (Document.newOk freshSink []).sink.failIdx = none ∧
    ((Document.newOk freshSink []).add (Page.new 2 3)).2.page_count
      = (Document.newOk freshSink []).page_count + 1 :=
  ⟨rfl, rfl,
    (c4_add_post_increment (Document.newOk freshSink []) (Page.new 2 3) rfl rfl).1⟩

/-- C5: every color channel stored by a fill or stroke mutator is clamped
into [0, 1] whatever the input, the constructors start with channels in
[0, 1], and every `setrgbcolor` / `setcmykcolor` directive emitted by a
shape whose stored channels are in [0, 1] carries only values in [0, 1]. -/
theorem c5_color_channels_clamped :
    (∀ x y w h : ℚ, (Rect.new x y w h).ColorsWF) ∧
    (∀ x y len : ℚ, (Line.new x y len).ColorsWF) ∧
    (∀ (r : Rect) (a b c : ℚ), r.ColorsWF → (r.fill_rgb a b c).ColorsWF) ∧
    (∀ (r : Rect) (a b c d : ℚ), r.ColorsWF → (r.fill_cmyk a b c d).ColorsWF) ∧
    (∀ (r : Rect) (w a b c : ℚ), r.ColorsWF → (r.stroke_rgb w a b c).ColorsWF) ∧
    (∀ (r : Rect) (w a b c d : ℚ), r.ColorsWF → (r.stroke_cmyk w a b c d).ColorsWF) ∧
    (∀ (l : Line) (w a b c : ℚ), l.ColorsWF → (l.stroke_rgb w a b c).ColorsWF) ∧
    (∀ (l : Line) (w a b c d : ℚ), l.ColorsWF → (l.stroke_cmyk w a b c d).ColorsWF) ∧
    (∀ r : Rect, r.ColorsWF → ∀ pl ∈ r.to_postscript_string, emittedColorOk pl) ∧
    (∀ l : Line, l.ColorsWF → ∀ pl ∈ l.to_postscript_string, emittedColorOk pl) := by
  have h01 : In01 0 := by constructor <;> norm_num
  refine ⟨?_, ?_, ?_, ?_, ?_, ?_, ?_, ?_, ?_, ?_⟩
  · intro x y w h
    exact ⟨h01, h01, h01, h01, h01, h01, h01, h01, h01, h01, h01, h01, h01, h01⟩
  · intro x y len
    exact ⟨h01, h01, h01, h01, h01, h01, h01⟩
  · intro r a b c h
    obtain ⟨h1, h2, h3, h4, h5, h6, h7, _, _, _, h11, h12, h13, h14⟩ := h
    exact ⟨h1, h2, h3, h4, h5, h6, h7, In01_clamp01 a, In01_clamp01 b, In01_clamp01 c,
      h11, h12, h13, h14⟩
  · intro r a b c d h
    obtain ⟨h1, h2, h3, h4, h5, h6, h7, h8, h9, h10, _, _, _, _⟩ := h
    exact ⟨h1, h2, h3, h4, h5, h6, h7, h8, h9, h10, In01_clamp01 a, In01_clamp01 b,
      In01_clamp01 c, In01_clamp01 d⟩
  · intro r w a b c h
    obtain ⟨_, _, _, h4, h5, h6, h7, h8, h9, h10, h11, h12, h13, h14⟩ := h
    exact ⟨In01_clamp01 a, In01_clamp01 b, In01_clamp01 c, h4, h5, h6, h7, h8, h9, h10,
      h11, h12, h13, h14⟩
  · intro r w a b c d h
    obtain ⟨h1, h2, h3, _, _, _, _, h8, h9, h10, h11, h12, h13, h14⟩ := h
    exact ⟨h1, h2, h3, In01_clamp01 a, In01_clamp01 b, In01_clamp01 c, In01_clamp01 d,
      h8, h9, h10, h11, h12, h13, h14⟩
  · intro l w a b c h
    obtain ⟨_, _, _, h4, h5, h6, h7⟩ := h
    exact ⟨In01_clamp01 a, In01_clamp01 b, In01_clamp01 c, h4, h5, h6, h7⟩
  · intro l w a b c d h
    obtain ⟨h1, h2, h3, _, _, _, _⟩ := h
    exact ⟨h1, h2, h3, In01_clamp01 a, In01_clamp01 b, In01_clamp01 c, In01_clamp01 d⟩
  · intro r h
    rcases hdr : r.do_rotate <;> rcases hds : r.do_scale <;> rcases hdf : r.do_fill <;>
      by_cases hsw : (0 : ℚ) < r.stroke_width <;>
      simp [Rect.to_postscript_string, hdr, hds, hdf, hsw, List.forall_mem_cons,
        emittedColorOk_neutral, emittedColorOk_rect_fillColorLine r h,
        emittedColorOk_rect_strokeColorLine r h]
  · intro l h
    rcases hdr : l.do_rotate <;> rcases hds : l.do_scale <;>
      by_cases hsw : (0 : ℚ) < l.stroke_width <;>
      by_cases hrot : (0 : ℚ) < l.rotate ∧ l.rotate < 360 <;>
      simp [Line.to_postscript_string, hdr, hds, hsw, hrot, List.forall_mem_cons,
        emittedColorOk_neutral, emittedColorOk_line_strokeColorLine l h]

/-- C5 witness: a fresh Rect has channels in [0, 1], and so does the result
of `fill_rgb` with out-of-range inputs. -/
theorem c5_color_channels_clamped_witness :
    (Rect.new 0 0 1 1).ColorsWF ∧ ((Rect.new 0 0 1 1).fill_rgb 5 (-3) (1/2)).ColorsWF :=
  ⟨c5_color_channels_clamped.1 0 0 1 1,
   c5_color_channels_clamped.2.2.1 (Rect.new 0 0 1 1) 5 (-3) (1/2)
     (c5_color_channels_clamped.1 0 0 1 1)⟩

/-- C6 counterexample: the claim says the EPS header fixes `%%Pages: 1`,
but the header `DocumentBuilder::build` writes for the EPS kind contains no
`%%Pages` line at all (while it does declare the bounding box). -/
theorem c6_counterexample :
    ((((DocumentBuilder.builder.document_type DocumentType.EPS).writer
        freshSink).load_procedures []).bounding_box 500 300).build
      = some (((((DocumentBuilder.builder.document_type DocumentType.EPS).writer
        freshSink).load_procedures []).bounding_box 500 300).buildOk freshSink) ∧
    PsLine.pagesNum 1 ∉
      sinkLines (((((DocumentBuilder.builder.document_type DocumentType.EPS).writer
        freshSink).load_procedures []).bounding_box 500 300).buildOk freshSink).sink ∧
    PsLine.boundingBox 500 300 ∈
      sinkLines (((((DocumentBuilder.builder.document_type DocumentType.EPS).writer
        freshSink).load_procedures []).bounding_box 500 300).buildOk freshSink).sink := by
  decide

/-- C6 (amended): an EPS document built with bounding box (w, h) gets the
header `banner, %%BoundingBox: 0 0 (max w 1) (max h 1), creator, creation
date, %%EndComments` followed by the registry procedures — with no `%%Pages`
line of any form — and the document machinery never emits a `%%Page:`
numbering directive for the EPS kind: any such directive in the output was
already in the sink or inside an added page's own buffer. -/
theorem c6_eps_header_and_no_page_directives :
    (∀ (w h : Int) (reg : ProcedureRegistry) (s : Sink), s.failIdx = none →
      ((((DocumentBuilder.builder.document_type DocumentType.EPS).writer
          s).load_procedures reg).bounding_box w h).build
        = some (((((DocumentBuilder.builder.document_type DocumentType.EPS).writer
          s).load_procedures reg).bounding_box w h).buildOk s) ∧
      sinkLines (((((DocumentBuilder.builder.document_type DocumentType.EPS).writer
          s).load_procedures reg).bounding_box w h).buildOk s).sink
        = sinkLines s
          ++ [PsLine.bannerEPS, PsLine.boundingBox (max w 1) (max h 1),
              PsLine.creator, PsLine.creationDate, PsLine.endComments]
          ++ reg.map (fun p => PsLine.procedureDef p.name p.body)) ∧
    (∀ (ps : List Page) (d : Document) (n m : Nat), d.doc_type = DocumentType.EPS →
      PsLine.pageDirective n m ∈ sinkLines (d.addAll ps).sink →
      PsLine.pageDirective n m ∈ sinkLines d.sink ∨
        ∃ p ∈ ps, PsLine.pageDirective n m ∈ p.buffer) := by
  constructor
  · intro w h reg s hs
    constructor
    · exact DocumentBuilder.build_eq_buildOk _ s rfl hs
    · simp [DocumentBuilder.buildOk, DocumentBuilder.buildChunks, DocumentBuilder.headerLines,
        DocumentBuilder.builder, DocumentBuilder.document_type, DocumentBuilder.writer,
        DocumentBuilder.load_procedures, DocumentBuilder.bounding_box,
        runWrites_noFail _ s hs, sinkLines, Chunk.content, List.map_map,
        flatten_map_singleton, flatten_map_content_lines]
  · intro ps
    induction ps with
    | nil =>
      intro d n m _ hmem
      exact Or.inl (by simpa [Document.addAll] using hmem)
    | cons p ps ih =>
      intro d n m hdt hmem
      have hdt2 : ((d.add p).2).doc_type = DocumentType.EPS := by
        simp [Document.add, hdt]
      have hmem2 : PsLine.pageDirective n m ∈ sinkLines ((d.add p).2.addAll ps).sink := by
        simpa [Document.addAll] using hmem
      rcases ih (d.add p).2 n m hdt2 hmem2 with hin | ⟨q, hq, hqq⟩
      · have hin2 : PsLine.pageDirective n m
            ∈ sinkLines (runWrites d.sink (d.addChunks p)).2 := by
          simpa [Document.add] using hin
        obtain ⟨c, hc, hxc⟩ := mem_sinkLines _ _ hin2
        rcases runWrites_written_sub (d.addChunks p) d.sink c hc with hcw | hcc
        · exact Or.inl (mem_sinkLines_of d.sink _ c hcw hxc)
        · have hcc2 : c = Chunk.lines [PsLine.pageBoundingBox p.width p.height,
              PsLine.pageSize p.width p.height] ∨
              c = Chunk.lines p.buffer ∨ c = Chunk.lines [PsLine.showpage] := by
            simpa [Document.addChunks, hdt, Page.fabricateChunks] using hcc
          rcases hcc2 with rfl | rfl | rfl
          · simp [Chunk.content] at hxc
          · exact Or.inr ⟨p, by simp, by simpa [Chunk.content] using hxc⟩
          · simp [Chunk.content] at hxc
      · exact Or.inr ⟨q, by simp [hq], hqq⟩

/-- C6 witness: the amended theorem applied at a concrete EPS builder and at
a concrete EPS document whose sink already contains a page directive. -/
theorem c6_eps_header_witness :
    ((((DocumentBuilder.builder.document_type DocumentType.EPS).writer
        freshSink).load_procedures []).bounding_box 500 300).build
      = some (((((DocumentBuilder.builder.document_type DocumentType.EPS).writer
        freshSink).load_procedures []).bounding_box 500 300).buildOk freshSink) ∧
    (PsLine.pageDirective 1 1 ∈ sinkLines
        (Document.mk DocumentType.EPS
          ⟨1, [Chunk.lines [PsLine.pageDirective 1 1]], none, 0⟩ 0).sink ∨
      ∃ p ∈ ([] : List Page), PsLine.pageDirective 1 1 ∈ p.buffer) :=
  ⟨(c6_eps_header_and_no_page_directives.1 500 300 [] freshSink rfl).1,
   c6_eps_header_and_no_page_directives.2 []
     (Document.mk DocumentType.EPS
       ⟨1, [Chunk.lines [PsLine.pageDirective 1 1]], none, 0⟩ 0) 1 1 rfl (by decide)⟩

/-- C7 counterexample: the claim says every sink write error — including
during header emission at document construction — propagates to the caller
as an Err result; but `Document::new` unwraps its header writes, so a sink
that fails on the very first write makes construction panic (modelled as
`none`) instead of returning the error value to the caller. -/
theorem c7_counterexample : Document.new (failSink 0 7) [] = none := by decide

/-- C7 (amended): write errors during page addition and during close
propagate unchanged to the caller at the point of occurrence (the error
value is returned as-is and exactly the chunks before the failing write were
written — no retry, no recovery); write errors during header emission at
construction (`Document::new` or `DocumentBuilder::build`) instead abort by
panic and are never returned as an Err result. -/
theorem c7_io_error_propagation :
    (∀ (d : Document) (p : Page) (k : Nat),
      d.sink.failIdx = some (d.sink.idx + k) → k < (d.addChunks p).length →
      (d.add p).1 = Except.error d.sink.err ∧
      (d.add p).2.sink.written = d.sink.written ++ (d.addChunks p).take k) ∧
    (∀ (d : Document) (k : Nat),
      d.sink.failIdx = some (d.sink.idx + k) → k < 2 →
      d.close.1 = Except.error d.sink.err ∧
      d.close.2.written = d.sink.written
        ++ ([Chunk.lines [PsLine.eofComment], Chunk.flushMark].take k)) ∧
    (∀ (reg : ProcedureRegistry) (e : Nat), Document.new (failSink 0 e) reg = none) ∧
    (∀ (b : DocumentBuilder) (e : Nat), (b.writer (failSink 0 e)).build = none) := by
  refine ⟨?_, ?_, ?_, ?_⟩
  · intro d p k hk hlen
    have hr := runWrites_fail (d.addChunks p) d.sink k hk hlen
    constructor
    · simp [Document.add, hr]
    · simp [Document.add, hr]
  · intro d k hk hlen
    have hr := runWrites_fail [Chunk.lines [PsLine.eofComment], Chunk.flushMark] d.sink k hk
      (by simpa using hlen)
    constructor
    · simp [Document.close, hr]
    · simp [Document.close, hr]
  · intro reg e
    simp [Document.new, Document.newChunks, runWrites, writeAll, failSink]
  · intro b e
    simp [DocumentBuilder.build, DocumentBuilder.writer, DocumentBuilder.buildChunks,
      runWrites, writeAll, failSink]

/-- C7 witness: the amended theorem applied to a PS document whose sink
fails on its next write. -/
theorem c7_io_error_propagation_witness :
    (Document.mk DocumentType.PS (failSink 0 7) 0).sink.failIdx
      = some ((Document.mk DocumentType.PS (failSink 0 7) 0).sink.idx + 0) ∧
    ((Document.mk DocumentType.PS (failSink 0 7) 0).add (Page.new 1 1)).1
      = Except.error (Document.mk DocumentType.PS (failSink 0 7) 0).sink.err :=
  ⟨rfl,
   (c7_io_error_propagation.1 (Document.mk DocumentType.PS (failSink 0 7) 0)
     (Page.new 1 1) 0 rfl (by decide)).1⟩

/-- C8: a 500×300 page holding one Rect(50,100,400,100) filled with
CMYK(0.5, 1, 0.5, 0) and no stroke serializes with exactly one fill block
(one `gsave`/`grestore` pair around one `fill`), zero stroke blocks, and the
page-bounding-box directive `%%PageBoundingBox: 0 0 500 300`. -/
theorem c8_fill_only_page :
    ((Page.new 500 300).add
        ((Rect.new 50 100 400 100).fill_cmyk (1/2) 1 (1/2) 0).to_postscript_string
      ).fabricateLines.count PsLine.fillOp = 1 ∧
    ((Page.new 500 300).add
        ((Rect.new 50 100 400 100).fill_cmyk (1/2) 1 (1/2) 0).to_postscript_string
      ).fabricateLines.count PsLine.strokeOp = 0 ∧
    ((Page.new 500 300).add
        ((Rect.new 50 100 400 100).fill_cmyk (1/2) 1 (1/2) 0).to_postscript_string
      ).fabricateLines.count PsLine.gsave = 1 ∧
    ((Page.new 500 300).add
        ((Rect.new 50 100 400 100).fill_cmyk (1/2) 1 (1/2) 0).to_postscript_string
      ).fabricateLines.count PsLine.grestore = 1 ∧
    PsLine.pageBoundingBox 500 300 ∈
      ((Page.new 500 300).add
        ((Rect.new 50 100 400 100).fill_cmyk (1/2) 1 (1/2) 0).to_postscript_string
      ).fabricateLines := by
  decide

/-- C9: a Line fresh from `Line::new` (no stroke mutator called) serializes
to exactly its path line followed by one stroke block `gsave, 1
setlinewidth, 0 0 0 setrgbcolor, stroke, grestore`, because `Line::new`
defaults the stroke width to 1; a Rect fresh from `Rect::new` emits no
stroke block at all, because its default stroke width is 0. -/
theorem c9_line_default_stroke :
    (∀ x y len : ℚ, (Line.new x y len).to_postscript_string
      = [PsLine.linePath (max len 0) (max x 0) (max y 0),
         PsLine.gsave, PsLine.setlinewidth 1, PsLine.setrgbcolor 0 0 0,
         PsLine.strokeOp, PsLine.grestore]) ∧
    (∀ x y w h : ℚ, PsLine.strokeOp ∉ (Rect.new x y w h).to_postscript_string) := by
  constructor
  · intro x y len
    simp [Line.new, Line.to_postscript_string, Line.strokeColorLine]
  · intro x y w h
    simp [Rect.new, Rect.to_postscript_string]

/-- C10: whenever a Line has rotation or scale enabled, the anchor emitted
in the opening translate directive is (x, x + length/2, x + length) for the
Left, Center, Right origin variants respectively in its first coordinate,
and always y + stroke_width/2 in its second — the pivot depends on the
stroke width, not only on the line's geometry. -/
theorem c10_line_anchor (l : Line) (h : (l.do_rotate || l.do_scale) = true) :
    l.to_postscript_string.head? = some PsLine.gsave ∧
    l.to_postscript_string[1]?
      = some (PsLine.translateTo
          (match l.transform_origin with
            | TransformLineOrigin.Left => l.x
            | TransformLineOrigin.Center => l.x + l.length / 2
            | TransformLineOrigin.Right => l.x + l.length)
          (l.y + l.stroke_width / 2)) := by
  cases horig : l.transform_origin <;>
    simp [Line.to_postscript_string, h, Line.originPoint, horig]

/-- C10 witness: the anchor theorem applied to a rotated line. -/
theorem c10_line_anchor_witness :
    ((((Line.new 1 2 3).rotateBy 45).do_rotate || ((Line.new 1 2 3).rotateBy 45).do_scale)
      = true) ∧
    ((Line.new 1 2 3).rotateBy 45).to_postscript_string.head? = some PsLine.gsave ∧
    ((Line.new 1 2 3).rotateBy 45).to_postscript_string[1]?
      = some (PsLine.translateTo
          (match ((Line.new 1 2 3).rotateBy 45).transform_origin with
            | TransformLineOrigin.Left => ((Line.new 1 2 3).rotateBy 45).x
            | TransformLineOrigin.Center =>
              ((Line.new 1 2 3).rotateBy 45).x + ((Line.new 1 2 3).rotateBy 45).length / 2
            | TransformLineOrigin.Right =>
              ((Line.new 1 2 3).rotateBy 45).x + ((Line.new 1 2 3).rotateBy 45).length)
          (((Line.new 1 2 3).rotateBy 45).y
            + ((Line.new 1 2 3).rotateBy 45).stroke_width / 2)) :=
  ⟨rfl, c10_line_anchor ((Line.new 1 2 3).rotateBy 45) rfl⟩

end Pslib
